import Mathlib

/-!
Shallow embedding of `SQLQueryBuilder.cpp`: a fluent SQL SELECT builder for
two dialects (MariaDB, Oracle).  The C++ class `SQLQueryBuilder` is embedded
as the structure `Builder`; every fluent method becomes a pure function
`Builder → ... → Builder`, and the const method `Build` becomes a pure
function `Builder → String`.  `std::string::find` and `std::string::replace`
(used for placeholder substitution) are embedded as `findSub` and
`replaceFirst` on `List Char`.
-/

namespace SQLQB

/-- `enum class DatabaseType { Oracle, MariaDB };` -/
inductive DatabaseType where
  | Oracle
  | MariaDB
deriving DecidableEq

/-- The single-quote character, built numerically (codepoint 39). -/
def sq : String := String.singleton (Char.ofNat 39)

/-- `InitializeReservedKeywords`: `reservedKeywords = { "DATE", "USER", "ORDER", "GROUP", "INDEX" };` -/
def InitializeReservedKeywords : List String :=
  ["DATE", "USER", "ORDER", "GROUP", "INDEX"]

/-- The private fields of class `SQLQueryBuilder`, with their default member
initializers (`is_distinct = false`, `limit = -1`, `offset = -1`); the
`unordered_map values` is embedded as an association list and the
`unordered_set reservedKeywords` as a list. -/
structure Builder where
  dbType : DatabaseType
  selectFields : List String
  tableName : String
  whereConditions : List String
  joins : List String
  orderBy : String
  indexClause : String
  is_distinct : Bool
  limit : Int
  offset : Int
  values : List (String × String)
  reservedKeywords : List String

/-- The constructor `SQLQueryBuilder(DatabaseType dbType)`: stores the dialect,
default-initializes every accumulator, and runs `InitializeReservedKeywords`. -/
def mkBuilder (dbType : DatabaseType) : Builder where
  dbType := dbType
  selectFields := []
  tableName := ""
  whereConditions := []
  joins := []
  orderBy := ""
  indexClause := ""
  is_distinct := false
  limit := -1
  offset := -1
  values := []
  reservedKeywords := InitializeReservedKeywords

/-- `HandleReservedKeyword(field)`: if `field` is in the reserved-keyword set,
wrap it in back-ticks (MariaDB) or double quotes (Oracle); else return it. -/
def HandleReservedKeyword (dbType : DatabaseType) (rks : List String) (field : String) : String :=
  if rks.contains field then
    match dbType with
    | DatabaseType.MariaDB => "`" ++ field ++ "`"
    | DatabaseType.Oracle => "\"" ++ field ++ "\""
  else field

/-- `FormatDateTime(dateTime)`: single quotes for MariaDB, `TO_TIMESTAMP`
wrapping for Oracle. -/
def FormatDateTime (dbType : DatabaseType) (dateTime : String) : String :=
  match dbType with
  | DatabaseType.MariaDB => sq ++ dateTime ++ sq
  | DatabaseType.Oracle =>
      "TO_TIMESTAMP(" ++ sq ++ dateTime ++ sq ++ ", " ++ sq ++ "YYYY-MM-DD HH24:MI:SS" ++ sq ++ ")"

/-- `Select(fields)`: push `HandleReservedKeyword(field)` for each field. -/
def Select (s : Builder) (fields : List String) : Builder :=
  { s with selectFields :=
      s.selectFields ++ fields.map (HandleReservedKeyword s.dbType s.reservedKeywords) }

/-- `From(table)`: set `tableName = table`. -/
def From (s : Builder) (table : String) : Builder :=
  { s with tableName := table }

/-- `Distinct()`: set `is_distinct = true`. -/
def Distinct (s : Builder) : Builder :=
  { s with is_distinct := true }

/-- `Where(conditions, isDateTime)`: for each `(column, value)` pair push
`HandleReservedKeyword(column) + " = " + formattedValue` where the value is
passed through `FormatDateTime` when `isDateTime` is true. -/
def Where (s : Builder) (conditions : List (String × String)) (isDateTime : Bool) : Builder :=
  { s with whereConditions :=
      s.whereConditions ++ conditions.map (fun condition =>
        HandleReservedKeyword s.dbType s.reservedKeywords condition.1 ++ " = " ++
          (if isDateTime then FormatDateTime s.dbType condition.2 else condition.2)) }

/-- `WhereWithPlaceholder(conditions)`: like `Where` but the value is stored
verbatim (a placeholder token). -/
def WhereWithPlaceholder (s : Builder) (conditions : List (String × String)) : Builder :=
  { s with whereConditions :=
      s.whereConditions ++ conditions.map (fun condition =>
        HandleReservedKeyword s.dbType s.reservedKeywords condition.1 ++ " = " ++ condition.2) }

/-- Update of the association list embedding `values[placeholder] = v`
(overwrite if the key is present, append otherwise). -/
def updateAssoc : List (String × String) → String → String → List (String × String)
  | [], k, v => [(k, v)]
  | kv :: rest, k, v =>
      if kv.1 = k then (k, v) :: rest else kv :: updateAssoc rest k v

/-- `SetValue(placeholder, value)`: `values[placeholder] = ConvertToString(value)`;
here the value is taken already stringified. -/
def SetValue (s : Builder) (placeholder : String) (value : String) : Builder :=
  { s with values := updateAssoc s.values placeholder value }

/-- `InnerJoin(table, onCondition)`: push `"INNER JOIN <table> ON <onCondition>"`. -/
def InnerJoin (s : Builder) (table : String) (onCondition : String) : Builder :=
  { s with joins := s.joins ++ ["INNER JOIN " ++ table ++ " ON " ++ onCondition] }

/-- `OrderBy(field, ascending)`: set
`orderBy = HandleReservedKeyword(field) + (" ASC" | " DESC")`. -/
def OrderBy (s : Builder) (field : String) (ascending : Bool) : Builder :=
  { s with orderBy :=
      HandleReservedKeyword s.dbType s.reservedKeywords field ++
        (if ascending then " ASC" else " DESC") }

/-- `Index(indexName)`: set `indexClause = indexName`. -/
def Index (s : Builder) (indexName : String) : Builder :=
  { s with indexClause := indexName }

/-- `Limit(limit)`: set the limit field. -/
def Limit (s : Builder) (limit : Int) : Builder :=
  { s with limit := limit }

/-- `Offset(offset)`: set the offset field. -/
def Offset (s : Builder) (offset : Int) : Builder :=
  { s with offset := offset }

/-- The static `Join(elements, delimiter)` helper: concatenate, inserting the
delimiter before every element except the first. -/
def Join (elements : List String) (delimiter : String) : String :=
  match elements with
  | [] => ""
  | e :: es => es.foldl (fun acc x => acc ++ delimiter ++ x) e

/-- Prefix test on character lists (`pat` is a prefix of `s`), the matching
primitive underlying `std::string::find`. -/
def isPre : List Char → List Char → Bool
  | [], _ => true
  | _ :: _, [] => false
  | p :: ps, c :: cs => if p = c then isPre ps cs else false

/-- `std::string::find(pat)`: index of the first occurrence of `pat` in `s`,
`none` standing for `npos`.  An empty pattern matches at index 0. -/
def findSub : List Char → List Char → Option Nat
  | [], pat => if isPre pat [] then some 0 else none
  | c :: t, pat =>
      if isPre pat (c :: t) then some 0
      else (findSub t pat).map (· + 1)

/-- `whereClause.replace(pos, pat.length(), v)` after a successful
`find`: splice `v` over the first occurrence of `pat`; identity if `pat`
does not occur. -/
def replaceFirst (s pat v : List Char) : List Char :=
  match findSub s pat with
  | none => s
  | some i => s.take i ++ v ++ s.drop (i + pat.length)

/-- String-level wrapper for `findSub`. -/
def findSubS (s pat : String) : Option Nat :=
  findSub s.data pat.data

/-- String-level wrapper for `replaceFirst`. -/
def replaceFirstS (s pat v : String) : String :=
  String.mk (replaceFirst s.data pat.data v.data)

/-- The substitution loop of `Build`: `for (pair : values) { find; replace }`,
applied to the joined where-clause. -/
def substituteAll (clause : String) (vals : List (String × String)) : String :=
  vals.foldl (fun acc kv => replaceFirstS acc kv.1 kv.2) clause

/-- `Build`, Oracle index-hint segment:
`if (dbType == Oracle && !indexClause.empty()) query << " /*+ INDEX(...) */ ";` -/
def oracleHintPart (s : Builder) : String :=
  if s.dbType = DatabaseType.Oracle ∧ s.indexClause ≠ "" then
    " /*+ INDEX(" ++ s.tableName ++ ", " ++ s.indexClause ++ ") */ "
  else ""

/-- `Build`, column-list segment: `*` when no field was selected, otherwise
an optional ` DISTINCT  ` marker followed by the fields joined by `, `. -/
def columnsPart (s : Builder) : String :=
  if s.selectFields = [] then "*"
  else (if s.is_distinct then " DISTINCT  " else "") ++ Join s.selectFields ", "

/-- `Build`, MariaDB index-hint segment:
`if (dbType == MariaDB && !indexClause.empty()) query << " FORCE INDEX(...) ";` -/
def mariaHintPart (s : Builder) : String :=
  if s.dbType = DatabaseType.MariaDB ∧ s.indexClause ≠ "" then
    " FORCE INDEX(" ++ s.indexClause ++ ") "
  else ""

/-- `Build`, join segment: `for (join : joins) query << " " << join;`. -/
def joinsPart (s : Builder) : String :=
  s.joins.foldl (fun acc j => acc ++ " " ++ j) ""

/-- `Build`, WHERE segment: when `whereConditions` is non-empty, join the
conditions with ` AND `, run placeholder substitution, and emit
` WHERE <clause>`. -/
def wherePart (s : Builder) : String :=
  if s.whereConditions = [] then ""
  else " WHERE " ++ substituteAll (Join s.whereConditions " AND ") s.values

/-- `Build`, ORDER BY segment. -/
def orderPart (s : Builder) : String :=
  if s.orderBy = "" then "" else " ORDER BY " ++ s.orderBy

/-- `Build`, pagination segment: LIMIT/OFFSET for MariaDB, FETCH FIRST for
Oracle, both guarded by `limit >= 0` and the OFFSET additionally by
`offset > 0`. -/
def paginationPart (s : Builder) : String :=
  match s.dbType with
  | DatabaseType.MariaDB =>
      if s.limit ≥ 0 then
        " LIMIT " ++ toString s.limit ++
          (if s.offset > 0 then " OFFSET " ++ toString s.offset else "")
      else ""
  | DatabaseType.Oracle =>
      if s.limit ≥ 0 then " FETCH FIRST " ++ toString s.limit ++ " ROWS ONLY"
      else ""

/-- `Build() const`: the sequential `ostringstream` writes, in program order. -/
def Build (s : Builder) : String :=
  "SELECT " ++ oracleHintPart s ++ columnsPart s ++ " FROM " ++ s.tableName ++
    mariaHintPart s ++ joinsPart s ++ wherePart s ++ orderPart s ++ paginationPart s

/-- `Build` is a const method: calling it leaves the object unchanged and
returns the rendered string.  The state-threading embedding of that call. -/
def Render (s : Builder) : Builder × String :=
  (s, Build s)

/-! ## Helper lemmas about the string primitives -/

theorem str_empty_append (s : String) : "" ++ s = s := by
  cases s with
  | mk d => rfl

theorem isPre_cons_cons (p c : Char) (ps cs : List Char) :
    isPre (p :: ps) (c :: cs) = if p = c then isPre ps cs else false := rfl

theorem isPre_head_ne {p c : Char} (ps cs : List Char) (h : p ≠ c) :
    isPre (p :: ps) (c :: cs) = false := by
  rw [isPre_cons_cons, if_neg h]

theorem isPre_self_append (p r : List Char) : isPre p (p ++ r) = true := by
  induction p with
  | nil => rfl
  | cons a as ih => rw [List.cons_append, isPre_cons_cons, if_pos rfl]; exact ih

/-- A definite mismatch of `pat` against the first characters `x` of a
string: the comparison fails before either list runs out, so no extension
of `x` can make `pat` a prefix. -/
def clash : List Char → List Char → Bool
  | [], _ => false
  | _ :: _, [] => false
  | p :: ps, c :: cs => if p = c then clash ps cs else true

theorem clash_cons_cons (p c : Char) (ps cs : List Char) :
    clash (p :: ps) (c :: cs) = if p = c then clash ps cs else true := rfl

theorem isPre_of_clash (pat x : List Char) (h : clash pat x = true) (y : List Char) :
    isPre pat (x ++ y) = false := by
  induction pat generalizing x with
  | nil => simp [clash] at h
  | cons p ps ih =>
      cases x with
      | nil => simp [clash] at h
      | cons c cs =>
          rw [List.cons_append, isPre_cons_cons]
          by_cases hpc : p = c
          · rw [if_pos hpc]
            rw [clash_cons_cons, if_pos hpc] at h
            exact ih cs h
          · rw [if_neg hpc]

theorem findSub_of_isPre {s pat : List Char} (h : isPre pat s = true) :
    findSub s pat = some 0 := by
  cases s with
  | nil => simp [findSub, h]
  | cons c t => simp [findSub, h]

theorem findSub_cons_of {pat : List Char} (c : Char) (t : List Char)
    (h1 : isPre pat (c :: t) = false) (h2 : findSub t pat = none) :
    findSub (c :: t) pat = none := by
  simp [findSub, h1, h2]

theorem findSub_append_none {pat y : List Char} :
    ∀ x, findSub (x ++ y) pat = none → findSub y pat = none := by
  intro x
  induction x with
  | nil => intro h; simpa using h
  | cons c t ih =>
      intro h
      rw [List.cons_append] at h
      cases hb : isPre pat (c :: (t ++ y)) with
      | true => rw [findSub_of_isPre hb] at h; exact Option.noConfusion h
      | false =>
          have h2 : (findSub (t ++ y) pat).map (· + 1) = none := by
            simpa [findSub, hb] using h
          exact ih (Option.map_eq_none'.mp h2)

theorem findSub_ne_none_append {pat y : List Char} (x : List Char)
    (h : findSub y pat ≠ none) : findSub (x ++ y) pat ≠ none :=
  fun hc => h (findSub_append_none x hc)

theorem findSub_empty_pat (l : List Char) : findSub l [] = some 0 := by
  cases l <;> simp [findSub, isPre]

theorem findSub_some_spec :
    ∀ (s pat : List Char) (i : Nat), findSub s pat = some i →
      isPre pat (s.drop i) = true ∧ ∀ j, j < i → isPre pat (s.drop j) = false := by
  intro s
  induction s with
  | nil =>
      intro pat i h
      cases hb : isPre pat [] with
      | true =>
          have h0 : i = 0 := by simpa [findSub, hb] using h.symm
          subst h0
          exact ⟨hb, fun j hj => absurd hj (Nat.not_lt_zero j)⟩
      | false => simp [findSub, hb] at h
  | cons c t ih =>
      intro pat i h
      cases hb : isPre pat (c :: t) with
      | true =>
          have h0 : i = 0 := by simpa [findSub, hb] using h.symm
          subst h0
          exact ⟨hb, fun j hj => absurd hj (Nat.not_lt_zero j)⟩
      | false =>
          have h2 : (findSub t pat).map (· + 1) = some i := by
            simpa [findSub, hb] using h
          rcases Option.map_eq_some'.mp h2 with ⟨i0, hfind, hi⟩
          subst hi
          obtain ⟨hA, hB⟩ := ih pat i0 hfind
          refine ⟨by simpa [List.drop_succ_cons] using hA, ?_⟩
          intro j hj
          cases j with
          | zero => simpa using hb
          | succ j0 =>
              have := hB j0 (by omega)
              simpa [List.drop_succ_cons] using this

/-! ## The characters of a rendered integer are digits, possibly after a minus -/

theorem digitChar_isDigit : ∀ m : Nat, m < 10 → (Nat.digitChar m).isDigit = true := by
  decide

theorem toDigitsCore_mem :
    ∀ (fuel n : Nat) (ds : List Char) (c : Char),
      c ∈ Nat.toDigitsCore 10 fuel n ds → c ∈ ds ∨ c.isDigit = true := by
  intro fuel
  induction fuel with
  | zero =>
      intro n ds c h
      exact Or.inl (by simpa [Nat.toDigitsCore] using h)
  | succ f ih =>
      intro n ds c h
      simp only [Nat.toDigitsCore] at h
      by_cases h0 : n / 10 = 0
      · rw [if_pos h0] at h
        rcases List.mem_cons.mp h with h1 | h1
        · exact Or.inr (by rw [h1]; exact digitChar_isDigit _ (Nat.mod_lt _ (by norm_num)))
        · exact Or.inl h1
      · rw [if_neg h0] at h
        rcases ih (n / 10) (Nat.digitChar (n % 10) :: ds) c h with h1 | h1
        · rcases List.mem_cons.mp h1 with h2 | h2
          · exact Or.inr (by rw [h2]; exact digitChar_isDigit _ (Nat.mod_lt _ (by norm_num)))
          · exact Or.inl h2
        · exact Or.inr h1

theorem nat_repr_chars (n : Nat) : ∀ c ∈ (Nat.repr n).data, c.isDigit = true := by
  intro c hc
  have h : c ∈ Nat.toDigitsCore 10 (n + 1) n [] := hc
  rcases toDigitsCore_mem (n + 1) n [] c h with h1 | h1
  · exact absurd h1 (List.not_mem_nil c)
  · exact h1

theorem int_toString_chars (i : Int) :
    ∀ c ∈ (toString i).data, c.isDigit = true ∨ c = '-' := by
  cases i with
  | ofNat m => intro c hc; exact Or.inl (nat_repr_chars m c hc)
  | negSucc m =>
      intro c hc
      rw [show (toString (Int.negSucc m)) = "-" ++ Nat.repr (m + 1) from rfl,
        String.data_append] at hc
      rcases List.mem_append.mp hc with h | h
      · have h2 : c ∈ ['-'] := h
        exact Or.inr (by simpa using h2)
      · exact Or.inl (nat_repr_chars (m + 1) c h)

theorem dm_ne_space_O {c : Char} (h : c.isDigit = true ∨ c = '-') :
    (' ' : Char) ≠ c ∧ ('O' : Char) ≠ c := by
  rcases h with h | h
  · constructor
    · intro he; rw [← he] at h; exact absurd h (by decide)
    · intro he; rw [← he] at h; exact absurd h (by decide)
  · rw [h]; exact ⟨by decide, by decide⟩

theorem findSub_digits_prepend (pr B : List Char) (hB : findSub B (' ' :: pr) = none) :
    ∀ m, (∀ c ∈ m, c.isDigit = true ∨ c = '-') → findSub (m ++ B) (' ' :: pr) = none := by
  intro m
  induction m with
  | nil => intro _; simpa using hB
  | cons c t ih =>
      intro hdm
      rw [List.cons_append]
      refine findSub_cons_of c (t ++ B) ?_ (ih fun x hx => hdm x (List.mem_cons_of_mem c hx))
      exact isPre_head_ne _ _ (dm_ne_space_O (hdm c (List.mem_cons_self c t))).1

theorem isPre_O_prepend (pr B : List Char) (hB : isPre ('O' :: pr) B = false) :
    ∀ m, (∀ c ∈ m, c.isDigit = true ∨ c = '-') → isPre ('O' :: pr) (m ++ B) = false := by
  intro m hdm
  cases m with
  | nil => simpa using hB
  | cons c t =>
      rw [List.cons_append]
      exact isPre_head_ne _ _ (dm_ne_space_O (hdm c (List.mem_cons_self c t))).2

theorem findSub_limit_digits (m : List Char)
    (hdm : ∀ c ∈ m, c.isDigit = true ∨ c = '-') :
    findSub ((" LIMIT " : String).data ++ m) ((" OFFSET " : String).data) = none := by
  show findSub (' ' :: 'L' :: 'I' :: 'M' :: 'I' :: 'T' :: ' ' :: m)
    [' ', 'O', 'F', 'F', 'S', 'E', 'T', ' '] = none
  refine findSub_cons_of _ _ (isPre_of_clash _ [' ', 'L', 'I', 'M', 'I', 'T', ' '] (by decide) m) ?_
  refine findSub_cons_of _ _ (isPre_of_clash _ ['L', 'I', 'M', 'I', 'T', ' '] (by decide) m) ?_
  refine findSub_cons_of _ _ (isPre_of_clash _ ['I', 'M', 'I', 'T', ' '] (by decide) m) ?_
  refine findSub_cons_of _ _ (isPre_of_clash _ ['M', 'I', 'T', ' '] (by decide) m) ?_
  refine findSub_cons_of _ _ (isPre_of_clash _ ['I', 'T', ' '] (by decide) m) ?_
  refine findSub_cons_of _ _ (isPre_of_clash _ ['T', ' '] (by decide) m) ?_
  refine findSub_cons_of _ _ ?_ ?_
  · rw [isPre_cons_cons, if_pos rfl]
    have h := isPre_O_prepend ['F', 'F', 'S', 'E', 'T', ' '] [] (by decide) m hdm
    rwa [List.append_nil] at h
  · have h := findSub_digits_prepend ['O', 'F', 'F', 'S', 'E', 'T', ' '] [] (by decide) m hdm
    rwa [List.append_nil] at h

theorem findSub_fetch_digits (m : List Char)
    (hdm : ∀ c ∈ m, c.isDigit = true ∨ c = '-') :
    findSub ((" FETCH FIRST " : String).data ++ (m ++ (" ROWS ONLY" : String).data))
      ((" OFFSET " : String).data) = none := by
  show findSub
    (' ' :: 'F' :: 'E' :: 'T' :: 'C' :: 'H' :: ' ' :: 'F' :: 'I' :: 'R' :: 'S' :: 'T' :: ' ' ::
      (m ++ [' ', 'R', 'O', 'W', 'S', ' ', 'O', 'N', 'L', 'Y']))
    [' ', 'O', 'F', 'F', 'S', 'E', 'T', ' '] = none
  refine findSub_cons_of _ _
    (isPre_of_clash _ [' ', 'F', 'E', 'T', 'C', 'H', ' ', 'F', 'I', 'R', 'S', 'T', ' '] (by decide) _) ?_
  refine findSub_cons_of _ _
    (isPre_of_clash _ ['F', 'E', 'T', 'C', 'H', ' ', 'F', 'I', 'R', 'S', 'T', ' '] (by decide) _) ?_
  refine findSub_cons_of _ _
    (isPre_of_clash _ ['E', 'T', 'C', 'H', ' ', 'F', 'I', 'R', 'S', 'T', ' '] (by decide) _) ?_
  refine findSub_cons_of _ _
    (isPre_of_clash _ ['T', 'C', 'H', ' ', 'F', 'I', 'R', 'S', 'T', ' '] (by decide) _) ?_
  refine findSub_cons_of _ _
    (isPre_of_clash _ ['C', 'H', ' ', 'F', 'I', 'R', 'S', 'T', ' '] (by decide) _) ?_
  refine findSub_cons_of _ _
    (isPre_of_clash _ ['H', ' ', 'F', 'I', 'R', 'S', 'T', ' '] (by decide) _) ?_
  refine findSub_cons_of _ _
    (isPre_of_clash _ [' ', 'F', 'I', 'R', 'S', 'T', ' '] (by decide) _) ?_
  refine findSub_cons_of _ _
    (isPre_of_clash _ ['F', 'I', 'R', 'S', 'T', ' '] (by decide) _) ?_
  refine findSub_cons_of _ _
    (isPre_of_clash _ ['I', 'R', 'S', 'T', ' '] (by decide) _) ?_
  refine findSub_cons_of _ _
    (isPre_of_clash _ ['R', 'S', 'T', ' '] (by decide) _) ?_
  refine findSub_cons_of _ _
    (isPre_of_clash _ ['S', 'T', ' '] (by decide) _) ?_
  refine findSub_cons_of _ _
    (isPre_of_clash _ ['T', ' '] (by decide) _) ?_
  refine findSub_cons_of _ _ ?_ ?_
  · rw [isPre_cons_cons, if_pos rfl]
    exact isPre_O_prepend ['F', 'F', 'S', 'E', 'T', ' ']
      [' ', 'R', 'O', 'W', 'S', ' ', 'O', 'N', 'L', 'Y'] (by decide) m hdm
  · exact findSub_digits_prepend ['O', 'F', 'F', 'S', 'E', 'T', ' ']
      [' ', 'R', 'O', 'W', 'S', ' ', 'O', 'N', 'L', 'Y'] (by decide) m hdm

theorem str_append_empty (s : String) : s ++ "" = s := by
  cases s with
  | mk d =>
      show String.mk (d ++ []) = String.mk d
      rw [List.append_nil]

theorem ne_none_of_eq_some {α : Type} {x : Option α} {a : α} (h : x = some a) : x ≠ none := by
  rw [h]; exact fun hc => Option.noConfusion hc

theorem contains_reserved_iff (field : String) :
    InitializeReservedKeywords.contains field = true ↔
      (field = "DATE" ∨ field = "USER" ∨ field = "ORDER" ∨ field = "GROUP" ∨ field = "INDEX") := by
  simp [InitializeReservedKeywords, List.contains_iff_exists_mem_beq]

/-! ## Claims -/

/-- C1: a column/identifier passed to Select, Where, WhereWithPlaceholder or
OrderBy is wrapped in back-ticks (MariaDB) or double quotes (Oracle) exactly
when it is one of DATE, USER, ORDER, GROUP, INDEX (case-sensitive exact
match); any other string passes through unchanged. -/
theorem c1_reserved_keyword_escaping (s : Builder)
    (hrk : s.reservedKeywords = InitializeReservedKeywords) (field : String) :
    ((field = "DATE" ∨ field = "USER" ∨ field = "ORDER" ∨ field = "GROUP" ∨ field = "INDEX") →
      (s.dbType = DatabaseType.MariaDB →
        HandleReservedKeyword s.dbType s.reservedKeywords field = "`" ++ field ++ "`") ∧
      (s.dbType = DatabaseType.Oracle →
        HandleReservedKeyword s.dbType s.reservedKeywords field = "\"" ++ field ++ "\"")) ∧
    (¬ (field = "DATE" ∨ field = "USER" ∨ field = "ORDER" ∨ field = "GROUP" ∨ field = "INDEX") →
      HandleReservedKeyword s.dbType s.reservedKeywords field = field) ∧
    (∀ fields, (Select s fields).selectFields =
      s.selectFields ++ fields.map (HandleReservedKeyword s.dbType s.reservedKeywords)) ∧
    (∀ conditions isDateTime, (Where s conditions isDateTime).whereConditions =
      s.whereConditions ++ conditions.map (fun condition =>
        HandleReservedKeyword s.dbType s.reservedKeywords condition.1 ++ " = " ++
          (if isDateTime then FormatDateTime s.dbType condition.2 else condition.2))) ∧
    (∀ conditions, (WhereWithPlaceholder s conditions).whereConditions =
      s.whereConditions ++ conditions.map (fun condition =>
        HandleReservedKeyword s.dbType s.reservedKeywords condition.1 ++ " = " ++ condition.2)) ∧
    (∀ field2 ascending, (OrderBy s field2 ascending).orderBy =
      HandleReservedKeyword s.dbType s.reservedKeywords field2 ++
        (if ascending then " ASC" else " DESC")) := by
  refine ⟨?_, ?_, fun fields => rfl, fun conditions isDateTime => rfl,
    fun conditions => rfl, fun field2 ascending => rfl⟩
  · intro hf
    have hc : s.reservedKeywords.contains field = true := by
      rw [hrk]; exact (contains_reserved_iff field).mpr hf
    constructor
    · intro hdb; unfold HandleReservedKeyword; rw [if_pos hc, hdb]
    · intro hdb; unfold HandleReservedKeyword; rw [if_pos hc, hdb]
  · intro hf
    have hc : s.reservedKeywords.contains field = false := by
      rw [hrk]
      cases hb : InitializeReservedKeywords.contains field with
      | true => exact absurd ((contains_reserved_iff field).mp hb) hf
      | false => rfl
    unfold HandleReservedKeyword
    rw [if_neg (show ¬ s.reservedKeywords.contains field = true from
      fun hq => by rw [hc] at hq; exact Bool.noConfusion hq)]

theorem c1_reserved_keyword_escaping_witness :
    HandleReservedKeyword (mkBuilder DatabaseType.MariaDB).dbType
      (mkBuilder DatabaseType.MariaDB).reservedKeywords "DATE" = "`DATE`" := by
  rw [((c1_reserved_keyword_escaping (mkBuilder DatabaseType.MariaDB) rfl "DATE").1
    (Or.inl rfl)).1 rfl]
  decide

/-- C4: a value passed to Where with isDateTime = true is stored wrapped in
single quotes for MariaDB and as a TO_TIMESTAMP(...) expression for Oracle,
purely textually; with isDateTime = false the value is used verbatim. -/
theorem c4_datetime_formatting (s : Builder) (column v : String) :
    (s.dbType = DatabaseType.MariaDB →
      FormatDateTime s.dbType v = sq ++ v ++ sq ∧
      (Where s [(column, v)] true).whereConditions =
        s.whereConditions ++
          [HandleReservedKeyword s.dbType s.reservedKeywords column ++ " = " ++
            (sq ++ v ++ sq)]) ∧
    (s.dbType = DatabaseType.Oracle →
      FormatDateTime s.dbType v =
        "TO_TIMESTAMP(" ++ sq ++ v ++ sq ++ ", " ++ sq ++ "YYYY-MM-DD HH24:MI:SS" ++ sq ++ ")" ∧
      (Where s [(column, v)] true).whereConditions =
        s.whereConditions ++
          [HandleReservedKeyword s.dbType s.reservedKeywords column ++ " = " ++
            ("TO_TIMESTAMP(" ++ sq ++ v ++ sq ++ ", " ++ sq ++ "YYYY-MM-DD HH24:MI:SS" ++ sq ++ ")")]) ∧
    (Where s [(column, v)] false).whereConditions =
      s.whereConditions ++
        [HandleReservedKeyword s.dbType s.reservedKeywords column ++ " = " ++ v] := by
  refine ⟨?_, ?_, rfl⟩
  · intro hdb
    have hf : FormatDateTime s.dbType v = sq ++ v ++ sq := by rw [hdb]; rfl
    exact ⟨hf, by simp [Where, hf]⟩
  · intro hdb
    have hf : FormatDateTime s.dbType v =
        "TO_TIMESTAMP(" ++ sq ++ v ++ sq ++ ", " ++ sq ++ "YYYY-MM-DD HH24:MI:SS" ++ sq ++ ")" := by
      rw [hdb]; rfl
    exact ⟨hf, by simp [Where, hf]⟩

theorem c4_datetime_formatting_witness :
    FormatDateTime (mkBuilder DatabaseType.Oracle).dbType "2024-01-01 10:00:00" =
      "TO_TIMESTAMP(" ++ sq ++ "2024-01-01 10:00:00" ++ sq ++ ", " ++ sq ++
        "YYYY-MM-DD HH24:MI:SS" ++ sq ++ ")" :=
  ((c4_datetime_formatting (mkBuilder DatabaseType.Oracle) "event_time"
    "2024-01-01 10:00:00").2.1 rfl).1

/-- C5: with a non-empty index hint, the Oracle dialect emits the inline hint
comment immediately after `SELECT ` and no FORCE INDEX clause, the MariaDB
dialect emits ` FORCE INDEX(...) ` immediately after ` FROM <tableName>` and
no inline hint comment; with no hint, neither text appears. -/
theorem c5_index_hints (s : Builder) :
    (s.dbType = DatabaseType.Oracle → s.indexClause ≠ "" →
      oracleHintPart s = " /*+ INDEX(" ++ s.tableName ++ ", " ++ s.indexClause ++ ") */ " ∧
      mariaHintPart s = "" ∧
      Build s = "SELECT " ++ (" /*+ INDEX(" ++ s.tableName ++ ", " ++ s.indexClause ++ ") */ ") ++
        columnsPart s ++ " FROM " ++ s.tableName ++ joinsPart s ++ wherePart s ++
          orderPart s ++ paginationPart s) ∧
    (s.dbType = DatabaseType.MariaDB → s.indexClause ≠ "" →
      mariaHintPart s = " FORCE INDEX(" ++ s.indexClause ++ ") " ∧
      oracleHintPart s = "" ∧
      Build s = "SELECT " ++ columnsPart s ++ " FROM " ++ s.tableName ++
        (" FORCE INDEX(" ++ s.indexClause ++ ") ") ++ joinsPart s ++ wherePart s ++
          orderPart s ++ paginationPart s) ∧
    (s.indexClause = "" → oracleHintPart s = "" ∧ mariaHintPart s = "") := by
  refine ⟨?_, ?_, ?_⟩
  · intro hdb hidx
    have ho : oracleHintPart s =
        " /*+ INDEX(" ++ s.tableName ++ ", " ++ s.indexClause ++ ") */ " := by
      unfold oracleHintPart; rw [if_pos ⟨hdb, hidx⟩]
    have hm : mariaHintPart s = "" := by
      unfold mariaHintPart
      rw [if_neg]
      rintro ⟨hd, _⟩
      rw [hdb] at hd
      exact DatabaseType.noConfusion hd
    refine ⟨ho, hm, ?_⟩
    unfold Build
    rw [ho, hm, str_append_empty]
  · intro hdb hidx
    have hm : mariaHintPart s = " FORCE INDEX(" ++ s.indexClause ++ ") " := by
      unfold mariaHintPart; rw [if_pos ⟨hdb, hidx⟩]
    have ho : oracleHintPart s = "" := by
      unfold oracleHintPart
      rw [if_neg]
      rintro ⟨hd, _⟩
      rw [hdb] at hd
      exact DatabaseType.noConfusion hd
    refine ⟨hm, ho, ?_⟩
    unfold Build
    rw [ho, hm, str_append_empty]
  · intro hidx
    constructor
    · unfold oracleHintPart; rw [if_neg]; rintro ⟨_, hne⟩; exact hne hidx
    · unfold mariaHintPart; rw [if_neg]; rintro ⟨_, hne⟩; exact hne hidx

theorem c5_index_hints_witness :
    oracleHintPart (Index (From (mkBuilder DatabaseType.Oracle) "employees") "idx_emp") =
      " /*+ INDEX(employees, idx_emp) */ " := by
  rw [((c5_index_hints (Index (From (mkBuilder DatabaseType.Oracle) "employees") "idx_emp")).1
    rfl (by decide)).1]
  decide

/-- C6: with no selected columns, `*` is emitted and no DISTINCT text appears
even when is_distinct is set; with columns and is_distinct set, ` DISTINCT  `
(one leading, two trailing spaces) is emitted immediately before the columns
joined by `, ` in insertion order. -/
theorem c6_columns_distinct (s : Builder) :
    (s.selectFields = [] →
      columnsPart s = "*" ∧ findSubS (columnsPart s) " DISTINCT  " = none) ∧
    (s.selectFields ≠ [] → s.is_distinct = true →
      columnsPart s = " DISTINCT  " ++ Join s.selectFields ", ") ∧
    (s.selectFields ≠ [] → s.is_distinct = false →
      columnsPart s = Join s.selectFields ", ") := by
  refine ⟨?_, ?_, ?_⟩
  · intro h
    have hc : columnsPart s = "*" := by unfold columnsPart; rw [if_pos h]
    exact ⟨hc, by rw [hc]; decide⟩
  · intro h hd
    unfold columnsPart
    rw [if_neg h, if_pos hd]
  · intro h hd
    unfold columnsPart
    rw [if_neg h, if_neg (by rw [hd]; exact fun hc => Bool.noConfusion hc), str_empty_append]

theorem c6_columns_distinct_witness :
    columnsPart (Distinct (Select (mkBuilder DatabaseType.MariaDB) ["id", "name"])) =
      " DISTINCT  id, name" := by
  rw [(c6_columns_distinct (Distinct (Select (mkBuilder DatabaseType.MariaDB)
    ["id", "name"]))).2.1 (by decide) (by decide)]
  decide

/-- C7: rendering is pure and deterministic: the const call leaves the
builder state unchanged, and rendering twice with no intervening mutation
yields identical strings. -/
theorem c7_render_pure_deterministic (s : Builder) :
    (Render s).1 = s ∧ (Render s).2 = Build s ∧ (Render ((Render s).1)).2 = (Render s).2 :=
  ⟨rfl, rfl, rfl⟩

/-- C8 counterexample: on a freshly constructed builder the offset field
holds -1, not 0 as the claim states. -/
theorem c8_fresh_offset_counterexample :
    (mkBuilder DatabaseType.MariaDB).offset = -1 ∧
      ¬ (mkBuilder DatabaseType.MariaDB).offset = 0 := by
  decide

/-- C8 (amended): on a freshly constructed builder, limitValue holds the
unset sentinel -1 (which is ≤ -1) and offsetValue holds -1 (a value ≤ 0, for
which no OFFSET is emitted); consequently a fresh builder renders no LIMIT,
OFFSET, or FETCH FIRST text in either dialect. -/
theorem c8_fresh_defaults_amended (dbType : DatabaseType) :
    (mkBuilder dbType).limit = -1 ∧ (mkBuilder dbType).limit ≤ -1 ∧
    (mkBuilder dbType).offset = -1 ∧ (mkBuilder dbType).offset ≤ 0 ∧
    Build (mkBuilder dbType) = "SELECT * FROM " ∧
    paginationPart (mkBuilder dbType) = "" ∧
    findSubS (Build (mkBuilder dbType)) " LIMIT " = none ∧
    findSubS (Build (mkBuilder dbType)) " OFFSET " = none ∧
    findSubS (Build (mkBuilder dbType)) " FETCH FIRST " = none := by
  cases dbType <;> decide

/-- C10: every fluent mutator only modifies its designated accumulator
field(s), leaving every other field — including the dialect tag and the
reserved-keyword set — unchanged (the C++ `return *this` is embedded as
returning the updated state). -/
theorem c10_mutator_frame (s : Builder) (fields : List String)
    (table onCondition field2 indexName placeholder value : String)
    (conditions : List (String × String)) (isDateTime ascending : Bool) (l o : Int) :
    ((Select s fields).dbType = s.dbType ∧ (Select s fields).tableName = s.tableName ∧
      (Select s fields).whereConditions = s.whereConditions ∧
      (Select s fields).joins = s.joins ∧ (Select s fields).orderBy = s.orderBy ∧
      (Select s fields).indexClause = s.indexClause ∧
      (Select s fields).is_distinct = s.is_distinct ∧ (Select s fields).limit = s.limit ∧
      (Select s fields).offset = s.offset ∧ (Select s fields).values = s.values ∧
      (Select s fields).reservedKeywords = s.reservedKeywords ∧
      (Select s fields).selectFields =
        s.selectFields ++ fields.map (HandleReservedKeyword s.dbType s.reservedKeywords)) ∧
    ((From s table).dbType = s.dbType ∧ (From s table).selectFields = s.selectFields ∧
      (From s table).whereConditions = s.whereConditions ∧ (From s table).joins = s.joins ∧
      (From s table).orderBy = s.orderBy ∧ (From s table).indexClause = s.indexClause ∧
      (From s table).is_distinct = s.is_distinct ∧ (From s table).limit = s.limit ∧
      (From s table).offset = s.offset ∧ (From s table).values = s.values ∧
      (From s table).reservedKeywords = s.reservedKeywords ∧
      (From s table).tableName = table) ∧
    ((Distinct s).dbType = s.dbType ∧ (Distinct s).selectFields = s.selectFields ∧
      (Distinct s).tableName = s.tableName ∧
      (Distinct s).whereConditions = s.whereConditions ∧ (Distinct s).joins = s.joins ∧
      (Distinct s).orderBy = s.orderBy ∧ (Distinct s).indexClause = s.indexClause ∧
      (Distinct s).limit = s.limit ∧ (Distinct s).offset = s.offset ∧
      (Distinct s).values = s.values ∧
      (Distinct s).reservedKeywords = s.reservedKeywords ∧
      (Distinct s).is_distinct = true) ∧
    ((Where s conditions isDateTime).dbType = s.dbType ∧
      (Where s conditions isDateTime).selectFields = s.selectFields ∧
      (Where s conditions isDateTime).tableName = s.tableName ∧
      (Where s conditions isDateTime).joins = s.joins ∧
      (Where s conditions isDateTime).orderBy = s.orderBy ∧
      (Where s conditions isDateTime).indexClause = s.indexClause ∧
      (Where s conditions isDateTime).is_distinct = s.is_distinct ∧
      (Where s conditions isDateTime).limit = s.limit ∧
      (Where s conditions isDateTime).offset = s.offset ∧
      (Where s conditions isDateTime).values = s.values ∧
      (Where s conditions isDateTime).reservedKeywords = s.reservedKeywords) ∧
    ((WhereWithPlaceholder s conditions).dbType = s.dbType ∧
      (WhereWithPlaceholder s conditions).selectFields = s.selectFields ∧
      (WhereWithPlaceholder s conditions).tableName = s.tableName ∧
      (WhereWithPlaceholder s conditions).joins = s.joins ∧
      (WhereWithPlaceholder s conditions).orderBy = s.orderBy ∧
      (WhereWithPlaceholder s conditions).indexClause = s.indexClause ∧
      (WhereWithPlaceholder s conditions).is_distinct = s.is_distinct ∧
      (WhereWithPlaceholder s conditions).limit = s.limit ∧
      (WhereWithPlaceholder s conditions).offset = s.offset ∧
      (WhereWithPlaceholder s conditions).values = s.values ∧
      (WhereWithPlaceholder s conditions).reservedKeywords = s.reservedKeywords) ∧
    ((SetValue s placeholder value).dbType = s.dbType ∧
      (SetValue s placeholder value).selectFields = s.selectFields ∧
      (SetValue s placeholder value).tableName = s.tableName ∧
      (SetValue s placeholder value).whereConditions = s.whereConditions ∧
      (SetValue s placeholder value).joins = s.joins ∧
      (SetValue s placeholder value).orderBy = s.orderBy ∧
      (SetValue s placeholder value).indexClause = s.indexClause ∧
      (SetValue s placeholder value).is_distinct = s.is_distinct ∧
      (SetValue s placeholder value).limit = s.limit ∧
      (SetValue s placeholder value).offset = s.offset ∧
      (SetValue s placeholder value).reservedKeywords = s.reservedKeywords ∧
      (SetValue s placeholder value).values = updateAssoc s.values placeholder value) ∧
    ((InnerJoin s table onCondition).dbType = s.dbType ∧
      (InnerJoin s table onCondition).selectFields = s.selectFields ∧
      (InnerJoin s table onCondition).tableName = s.tableName ∧
      (InnerJoin s table onCondition).whereConditions = s.whereConditions ∧
      (InnerJoin s table onCondition).orderBy = s.orderBy ∧
      (InnerJoin s table onCondition).indexClause = s.indexClause ∧
      (InnerJoin s table onCondition).is_distinct = s.is_distinct ∧
      (InnerJoin s table onCondition).limit = s.limit ∧
      (InnerJoin s table onCondition).offset = s.offset ∧
      (InnerJoin s table onCondition).values = s.values ∧
      (InnerJoin s table onCondition).reservedKeywords = s.reservedKeywords ∧
      (InnerJoin s table onCondition).joins =
        s.joins ++ ["INNER JOIN " ++ table ++ " ON " ++ onCondition]) ∧
    ((OrderBy s field2 ascending).dbType = s.dbType ∧
      (OrderBy s field2 ascending).selectFields = s.selectFields ∧
      (OrderBy s field2 ascending).tableName = s.tableName ∧
      (OrderBy s field2 ascending).whereConditions = s.whereConditions ∧
      (OrderBy s field2 ascending).joins = s.joins ∧
      (OrderBy s field2 ascending).indexClause = s.indexClause ∧
      (OrderBy s field2 ascending).is_distinct = s.is_distinct ∧
      (OrderBy s field2 ascending).limit = s.limit ∧
      (OrderBy s field2 ascending).offset = s.offset ∧
      (OrderBy s field2 ascending).values = s.values ∧
      (OrderBy s field2 ascending).reservedKeywords = s.reservedKeywords) ∧
    ((Index s indexName).dbType = s.dbType ∧
      (Index s indexName).selectFields = s.selectFields ∧
      (Index s indexName).tableName = s.tableName ∧
      (Index s indexName).whereConditions = s.whereConditions ∧
      (Index s indexName).joins = s.joins ∧ (Index s indexName).orderBy = s.orderBy ∧
      (Index s indexName).is_distinct = s.is_distinct ∧
      (Index s indexName).limit = s.limit ∧ (Index s indexName).offset = s.offset ∧
      (Index s indexName).values = s.values ∧
      (Index s indexName).reservedKeywords = s.reservedKeywords ∧
      (Index s indexName).indexClause = indexName) ∧
    ((Limit s l).dbType = s.dbType ∧ (Limit s l).selectFields = s.selectFields ∧
      (Limit s l).tableName = s.tableName ∧
      (Limit s l).whereConditions = s.whereConditions ∧ (Limit s l).joins = s.joins ∧
      (Limit s l).orderBy = s.orderBy ∧ (Limit s l).indexClause = s.indexClause ∧
      (Limit s l).is_distinct = s.is_distinct ∧ (Limit s l).offset = s.offset ∧
      (Limit s l).values = s.values ∧
      (Limit s l).reservedKeywords = s.reservedKeywords ∧ (Limit s l).limit = l) ∧
    ((Offset s o).dbType = s.dbType ∧ (Offset s o).selectFields = s.selectFields ∧
      (Offset s o).tableName = s.tableName ∧
      (Offset s o).whereConditions = s.whereConditions ∧ (Offset s o).joins = s.joins ∧
      (Offset s o).orderBy = s.orderBy ∧ (Offset s o).indexClause = s.indexClause ∧
      (Offset s o).is_distinct = s.is_distinct ∧ (Offset s o).limit = s.limit ∧
      (Offset s o).values = s.values ∧
      (Offset s o).reservedKeywords = s.reservedKeywords ∧ (Offset s o).offset = o) := by
  repeat' apply And.intro
  all_goals rfl

/-- C2: with at least one accumulated where-clause, the clauses are joined
with ` AND ` in insertion order and, entry by entry of the placeholder map,
only the first textual occurrence of each token in the current clause text
is replaced by the stored value (each key applied at most once) before
emitting ` WHERE <substituted clause>`; a token never set by SetValue is
left verbatim. -/
theorem c2_where_substitution (s : Builder) (hs : s.whereConditions ≠ []) :
    wherePart s = " WHERE " ++ substituteAll (Join s.whereConditions " AND ") s.values ∧
    (s.values = [] → wherePart s = " WHERE " ++ Join s.whereConditions " AND ") ∧
    (∀ clause pat v, findSubS clause pat = none → replaceFirstS clause pat v = clause) ∧
    (∀ clause pat v i, findSubS clause pat = some i →
      (replaceFirstS clause pat v).data =
        clause.data.take i ++ v.data ++ clause.data.drop (i + pat.data.length) ∧
      isPre pat.data (clause.data.drop i) = true ∧
      ∀ j, j < i → isPre pat.data (clause.data.drop j) = false) := by
  refine ⟨?_, ?_, ?_, ?_⟩
  · unfold wherePart; rw [if_neg hs]
  · intro hv; unfold wherePart; rw [if_neg hs, hv]; rfl
  · intro clause pat v h
    unfold replaceFirstS replaceFirst
    rw [show findSub clause.data pat.data = none from h]
  · intro clause pat v i h
    have hspec := findSub_some_spec clause.data pat.data i h
    refine ⟨?_, hspec.1, hspec.2⟩
    unfold replaceFirstS replaceFirst
    rw [show findSub clause.data pat.data = some i from h]

theorem c2_where_substitution_witness :
    wherePart (SetValue (WhereWithPlaceholder (From (mkBuilder DatabaseType.MariaDB) "users")
        [("join_date", "?joindate")]) "?joindate" "SYSDATE") =
      " WHERE join_date = SYSDATE" := by
  rw [(c2_where_substitution (SetValue (WhereWithPlaceholder
    (From (mkBuilder DatabaseType.MariaDB) "users") [("join_date", "?joindate")])
    "?joindate" "SYSDATE") (by decide)).1]
  decide

/-- C9: when a placeholder entry has the empty string as key and
where-clauses exist, the substitution finds that key at position 0 of the
joined clause text and inserts the stored value at the very beginning of the
WHERE clause, before the first column name. -/
theorem c9_empty_placeholder_key (s : Builder) (hs : s.whereConditions ≠ []) (v : String)
    (hv : s.values = [("", v)]) :
    findSubS (Join s.whereConditions " AND ") "" = some 0 ∧
    wherePart s = " WHERE " ++ (v ++ Join s.whereConditions " AND ") ∧
    (∀ clause w, replaceFirstS clause "" w = w ++ clause) := by
  have hrep : ∀ (clause w : String), replaceFirstS clause "" w = w ++ clause := by
    intro clause w
    unfold replaceFirstS replaceFirst
    rw [show ("" : String).data = [] from rfl, findSub_empty_pat]
    simp only [List.take_zero, List.length_nil, Nat.add_zero, List.drop_zero, List.nil_append]
    rw [← String.data_append]
  refine ⟨findSub_empty_pat _, ?_, hrep⟩
  unfold wherePart
  rw [if_neg hs, hv]
  show " WHERE " ++ replaceFirstS (Join s.whereConditions " AND ") "" v =
    " WHERE " ++ (v ++ Join s.whereConditions " AND ")
  rw [hrep]

theorem c9_empty_placeholder_key_witness :
    wherePart (SetValue (WhereWithPlaceholder (From (mkBuilder DatabaseType.MariaDB) "t")
        [("a", "?x")]) "" "PRE") = " WHERE PREa = ?x" := by
  rw [(c9_empty_placeholder_key (SetValue (WhereWithPlaceholder
    (From (mkBuilder DatabaseType.MariaDB) "t") [("a", "?x")]) "" "PRE")
    (by decide) "PRE" (by decide)).2.1]
  decide

/-- C3: MariaDB-like rendering emits ` LIMIT <limitValue>` iff
`limitValue >= 0` and additionally ` OFFSET <offsetValue>` iff
`limitValue >= 0` and `offsetValue > 0`; Oracle-like rendering emits
` FETCH FIRST <limitValue> ROWS ONLY` iff `limitValue >= 0` and never emits
any OFFSET text regardless of offsetValue. -/
theorem c3_pagination_emission (s : Builder) :
    (s.dbType = DatabaseType.MariaDB →
      (findSubS (paginationPart s) " LIMIT " ≠ none ↔ s.limit ≥ 0) ∧
      (findSubS (paginationPart s) " OFFSET " ≠ none ↔ s.limit ≥ 0 ∧ s.offset > 0) ∧
      (s.limit ≥ 0 → paginationPart s =
        " LIMIT " ++ toString s.limit ++
          (if s.offset > 0 then " OFFSET " ++ toString s.offset else ""))) ∧
    (s.dbType = DatabaseType.Oracle →
      (findSubS (paginationPart s) " FETCH FIRST " ≠ none ↔ s.limit ≥ 0) ∧
      findSubS (paginationPart s) " OFFSET " = none ∧
      (s.limit ≥ 0 → paginationPart s =
        " FETCH FIRST " ++ toString s.limit ++ " ROWS ONLY")) := by
  constructor
  · intro hdb
    have hpag : paginationPart s =
        (if s.limit ≥ 0 then
          " LIMIT " ++ toString s.limit ++
            (if s.offset > 0 then " OFFSET " ++ toString s.offset else "")
        else "") := by
      unfold paginationPart; rw [hdb]
    by_cases hl : s.limit ≥ 0
    · have hpag2 : paginationPart s =
          " LIMIT " ++ toString s.limit ++
            (if s.offset > 0 then " OFFSET " ++ toString s.offset else "") := by
        rw [hpag, if_pos hl]
      by_cases ho : s.offset > 0
      · have hpag3 : paginationPart s =
            " LIMIT " ++ toString s.limit ++ (" OFFSET " ++ toString s.offset) := by
          rw [hpag2, if_pos ho]
        refine ⟨⟨fun _ => hl, fun _ => ?_⟩, ⟨fun _ => ⟨hl, ho⟩, fun _ => ?_⟩, fun _ => hpag2⟩
        · rw [hpag3]
          exact ne_none_of_eq_some (findSub_of_isPre (isPre_self_append
            ((" LIMIT " : String).data)
            ((toString s.limit).data ++ ((" OFFSET " : String).data ++ (toString s.offset).data))))
        · rw [hpag3]
          show findSub ((" LIMIT " : String).data ++
            ((toString s.limit).data ++ ((" OFFSET " : String).data ++ (toString s.offset).data)))
            ((" OFFSET " : String).data) ≠ none
          apply findSub_ne_none_append
          apply findSub_ne_none_append
          exact ne_none_of_eq_some (findSub_of_isPre (isPre_self_append _ _))
      · have hpag3 : paginationPart s = " LIMIT " ++ toString s.limit := by
          rw [hpag2, if_neg ho, str_append_empty]
        have hnone : findSubS (paginationPart s) " OFFSET " = none := by
          rw [hpag3]
          exact findSub_limit_digits (toString s.limit).data (int_toString_chars s.limit)
        refine ⟨⟨fun _ => hl, fun _ => ?_⟩,
          ⟨fun hne => absurd hnone hne, fun hc => absurd hc.2 ho⟩, fun _ => hpag2⟩
        rw [hpag3]
        exact ne_none_of_eq_some (findSub_of_isPre (isPre_self_append
          ((" LIMIT " : String).data) ((toString s.limit).data)))
    · have hpag2 : paginationPart s = "" := by rw [hpag, if_neg hl]
      have hnoneL : findSubS (paginationPart s) " LIMIT " = none := by rw [hpag2]; decide
      have hnoneO : findSubS (paginationPart s) " OFFSET " = none := by rw [hpag2]; decide
      exact ⟨⟨fun hne => absurd hnoneL hne, fun hle => absurd hle hl⟩,
        ⟨fun hne => absurd hnoneO hne, fun hc => absurd hc.1 hl⟩,
        fun hle => absurd hle hl⟩
  · intro hdb
    have hpag : paginationPart s =
        (if s.limit ≥ 0 then " FETCH FIRST " ++ toString s.limit ++ " ROWS ONLY" else "") := by
      unfold paginationPart; rw [hdb]
    by_cases hl : s.limit ≥ 0
    · have hpag2 : paginationPart s =
          " FETCH FIRST " ++ toString s.limit ++ " ROWS ONLY" := by
        rw [hpag, if_pos hl]
      refine ⟨⟨fun _ => hl, fun _ => ?_⟩, ?_, fun _ => hpag2⟩
      · rw [hpag2]
        exact ne_none_of_eq_some (findSub_of_isPre (isPre_self_append
          ((" FETCH FIRST " : String).data)
          ((toString s.limit).data ++ (" ROWS ONLY" : String).data)))
      · rw [hpag2]
        exact findSub_fetch_digits (toString s.limit).data (int_toString_chars s.limit)
    · have hpag2 : paginationPart s = "" := by rw [hpag, if_neg hl]
      have hnoneF : findSubS (paginationPart s) " FETCH FIRST " = none := by rw [hpag2]; decide
      have hnoneO : findSubS (paginationPart s) " OFFSET " = none := by rw [hpag2]; decide
      exact ⟨⟨fun hne => absurd hnoneF hne, fun hle => absurd hle hl⟩, hnoneO,
        fun hle => absurd hle hl⟩

theorem c3_pagination_emission_witness :
    findSubS (paginationPart (Offset (Limit (mkBuilder DatabaseType.MariaDB) 10) 5))
        " OFFSET " ≠ none ∧
    findSubS (paginationPart (Offset (Limit (mkBuilder DatabaseType.Oracle) 10) 5))
        " OFFSET " = none :=
  ⟨((c3_pagination_emission (Offset (Limit (mkBuilder DatabaseType.MariaDB) 10) 5)).1
      rfl).2.1.mpr (by decide),
   ((c3_pagination_emission (Offset (Limit (mkBuilder DatabaseType.Oracle) 10) 5)).2
      rfl).2.1⟩

end SQLQB
